import Mathlib

/-!
Verification of the arc-splitting and range-query logic of `src/main.rs`.

The program stores circular "arcs" over the u32 address space by splitting
each into at most two ascending linear sub-ranges (`SplitArc`), and answers
two SQL queries over the stored sub-ranges: which records cover a point, and
which records overlap a query arc.

The embedding models u32 values as `Nat` (with `u32MAX = 2^32 - 1` where the
code mentions `u32::MAX`), the bound pair returned by the external
`DhtArc::range()` as a `Bound` pair, the `unreachable!()` panic branch of the
splitter as `none`, and the SQLite store as a list of rows holding the four
nullable split columns. SQL `NULL` columns are `Option Nat`; the SQL `WHERE`
clauses are transcribed conjunct by conjunct, with the `IS NOT NULL` guards
realised by the pattern match (a conjunction containing a comparison against
`NULL` is never satisfied in SQL, matching the catch-all `false` arm).
-/

/-- Model of `std::ops::Bound<u32>` as returned by `DhtArc::range()`. -/
inductive Bound where
  | included : Nat → Bound
  | excluded : Nat → Bound
  | unbounded : Bound
deriving DecidableEq

/-- Value of `u32::MAX`. -/
def u32MAX : Nat := 4294967295

/-- Rust struct `SplitArc`: the four nullable split-range columns. -/
structure SplitArc where
  start_1 : Option Nat
  end_1 : Option Nat
  start_2 : Option Nat
  end_2 : Option Nat
deriving DecidableEq

/-- Transcription of `impl From<DhtArc> for SplitArc` (`src/main.rs:14-51`),
acting on the bound pair produced by `DhtArc::range()`. The `unreachable!()`
arm is modelled as `none`; every non-panicking outcome is `some`. -/
def splitArc : Bound → Bound → Option SplitArc
  | Bound.excluded _, Bound.excluded _ =>
      some ⟨none, none, none, none⟩
  | Bound.included s, Bound.included e =>
      if s > e then
        some ⟨some 0, some e, some s, some u32MAX⟩
      else
        some ⟨some s, some e, none, none⟩
  | _, _ => none

/-- One disjunct of the coverage `WHERE` clause (`src/main.rs:134-139`):
`arc_start IS NOT NULL AND arc_end IS NOT NULL AND ?1 >= arc_start AND
?1 <= arc_end`. -/
def sqlCovers (loc : Nat) : Option Nat → Option Nat → Bool
  | some s, some e => decide (loc ≥ s) && decide (loc ≤ e)
  | _, _ => false

/-- Row predicate of `count_agents_covering_loc` (`src/main.rs:130-148`). -/
def coveringRowPred (loc : Nat) (r : SplitArc) : Bool :=
  sqlCovers loc r.start_1 r.end_1 || sqlCovers loc r.start_2 r.end_2

/-- `count_agents_covering_loc` (`src/main.rs:130-148`): `COUNT(key)` over the
rows of `p2p_store` satisfying the coverage predicate. -/
def count_agents_covering_loc (store : List SplitArc) (loc : Nat) : Nat :=
  (store.filter (fun r => coveringRowPred loc r)).length

/-- One disjunct of the overlap `WHERE` clause (`src/main.rs:161-168`):
`?a IS NOT NULL AND ?b IS NOT NULL AND arc_start IS NOT NULL AND arc_end IS
NOT NULL AND ?a <= arc_end AND ?b >= arc_start`, where `?a, ?b` are one
start/end pair of the query's split and `arc_start, arc_end` the
corresponding stored pair. -/
def sqlIntersect : Option Nat → Option Nat → Option Nat → Option Nat → Bool
  | some qs, some qe, some as_, some ae => decide (qs ≤ ae) && decide (qe ≥ as_)
  | _, _, _, _ => false

/-- Row predicate of `count_agents_overlaping_arc` (`src/main.rs:158-176`):
query sub-range-1 against stored sub-range-1, or query sub-range-2 against
stored sub-range-2. -/
def overlapRowPred (q r : SplitArc) : Bool :=
  sqlIntersect q.start_1 q.end_1 r.start_1 r.end_1 ||
  sqlIntersect q.start_2 q.end_2 r.start_2 r.end_2

/-- `count_agents_overlaping_arc` (`src/main.rs:150-179`): split the query
arc's bound pair, then `COUNT(key)` over the rows satisfying the overlap
predicate. A panicking split propagates as `none`. -/
def count_agents_overlaping_arc (store : List SplitArc) (s e : Bound) :
    Option Nat :=
  match splitArc s e with
  | none => none
  | some q => some ((store.filter (fun r => overlapRowPred q r)).length)

/-- Intersection of two inclusive linear ranges as the spec states it
(§4.3 step 3): both sides present and `a1 <= b2 AND a2 <= b1`. -/
def specPairIntersects : Option Nat → Option Nat → Option Nat → Option Nat → Bool
  | some a1, some b1, some a2, some b2 => decide (a1 ≤ b2) && decide (a2 ≤ b1)
  | _, _, _, _ => false

/-- The spec's overlap rule (§4.3 step 2), written from the spec's words for
comparison with `overlapRowPred`: a record matches iff any of the four
pairwise intersections among the record's and the query's sub-ranges holds. -/
def specOverlapRowPred (q r : SplitArc) : Bool :=
  specPairIntersects r.start_1 r.end_1 q.start_1 q.end_1 ||
  specPairIntersects r.start_1 r.end_1 q.start_2 q.end_2 ||
  specPairIntersects r.start_2 r.end_2 q.start_1 q.end_1 ||
  specPairIntersects r.start_2 r.end_2 q.start_2 q.end_2

/-- The spec's coverage rule (§4.2), written from the spec's words for
comparison with `coveringRowPred`: the pair is present and the point lies
inclusively between its bounds, for either pair. -/
def specCoversProp (r : SplitArc) (p : Nat) : Prop :=
  (∃ s1 e1, r.start_1 = some s1 ∧ r.end_1 = some e1 ∧ s1 ≤ p ∧ p ≤ e1) ∨
  (∃ s2 e2, r.start_2 = some s2 ∧ r.end_2 = some e2 ∧ s2 ≤ p ∧ p ≤ e2)

/-- Invariant on one stored column pair: both set with `start <= end`, or
both unset. -/
def pairInv : Option Nat → Option Nat → Prop
  | some a, some b => a ≤ b
  | none, none => True
  | _, _ => False

/-- A bound whose payload is a representable u32 value. -/
def boundU32 : Bound → Prop
  | Bound.included n => n ≤ u32MAX
  | Bound.excluded n => n ≤ u32MAX
  | Bound.unbounded => True

theorem sqlIntersect_symm (a b c d : Option Nat) :
    sqlIntersect a b c d = sqlIntersect c d a b := by
  rcases a with _ | a <;> rcases b with _ | b <;>
    rcases c with _ | c <;> rcases d with _ | d <;>
    simp [sqlIntersect, ge_iff_le, Bool.and_comm]

theorem overlapRowPred_symm (q r : SplitArc) :
    overlapRowPred q r = overlapRowPred r q := by
  unfold overlapRowPred
  rw [sqlIntersect_symm q.start_1 q.end_1 r.start_1 r.end_1,
    sqlIntersect_symm q.start_2 q.end_2 r.start_2 r.end_2]

theorem count_overlap_single (x y : SplitArc) (s e : Bound)
    (h : splitArc s e = some y) :
    count_agents_overlaping_arc [x] s e =
      some (if overlapRowPred y x then 1 else 0) := by
  unfold count_agents_overlaping_arc
  rw [h]
  by_cases hp : overlapRowPred y x = true <;>
    simp [List.filter, hp]

/-- Claim C3: a non-wrapping interval with inclusive bounds `s <= e` splits
into `{Some(s), Some(e), None, None}`, and a wrapping interval with inclusive
bounds `s > e` splits into `{Some(u32::MIN), Some(e), Some(s), Some(u32::MAX)}`. -/
theorem split_nonwrap_wrap_shapes (s e : Nat) :
    (s ≤ e →
      splitArc (Bound.included s) (Bound.included e) =
        some ⟨some s, some e, none, none⟩) ∧
    (e < s →
      splitArc (Bound.included s) (Bound.included e) =
        some ⟨some 0, some e, some s, some u32MAX⟩) := by
  constructor
  · intro h
    simp [splitArc, Nat.not_lt.mpr h]
  · intro h
    simp [splitArc, h]

/-- Witness for C3 at the concrete non-wrapping pair `(3, 5)` and the
concrete wrapping pair `(5, 3)`. -/
theorem split_nonwrap_wrap_shapes_witness :
    splitArc (Bound.included 3) (Bound.included 5) =
      some ⟨some 3, some 5, none, none⟩ ∧
    splitArc (Bound.included 5) (Bound.included 3) =
      some ⟨some 0, some 3, some 5, some u32MAX⟩ :=
  ⟨(split_nonwrap_wrap_shapes 3 5).1 (by decide),
   (split_nonwrap_wrap_shapes 5 3).2 (by decide)⟩

/-- Claim C4: a zero-length interval (both bounds excluded) splits into the
all-unset `SplitArc`; a stored record with all four fields unset matches no
coverage query at any point and no overlap query, and an all-unset query
matches no record. -/
theorem zero_length_matches_nothing (a b loc : Nat) (q r : SplitArc) :
    splitArc (Bound.excluded a) (Bound.excluded b) =
      some ⟨none, none, none, none⟩ ∧
    count_agents_covering_loc [⟨none, none, none, none⟩] loc = 0 ∧
    overlapRowPred q ⟨none, none, none, none⟩ = false ∧
    overlapRowPred ⟨none, none, none, none⟩ r = false ∧
    count_agents_overlaping_arc [r] (Bound.excluded a) (Bound.excluded b) =
      some 0 := by
  refine ⟨rfl, ?_, ?_, ?_, ?_⟩
  · simp [count_agents_covering_loc, coveringRowPred, sqlCovers, List.filter]
  · obtain ⟨s1, e1, s2, e2⟩ := q
    rcases s1 with _ | s1 <;> rcases e1 with _ | e1 <;>
      rcases s2 with _ | s2 <;> rcases e2 with _ | e2 <;>
      simp [overlapRowPred, sqlIntersect]
  · simp [overlapRowPred, sqlIntersect]
  · have hempty : overlapRowPred ⟨none, none, none, none⟩ r = false := by
      simp [overlapRowPred, sqlIntersect]
    simp [count_agents_overlaping_arc, splitArc, List.filter, hempty]

/-- Claim C5: the coverage query matches a record iff its first pair is
present with `start_1 <= P <= end_1`, or its second pair is present with
`start_2 <= P <= end_2`, both bounds inclusive; a record with both pairs
unset never matches. -/
theorem coverage_predicate_matches_spec (r : SplitArc) (p : Nat) :
    coveringRowPred p r = true ↔ specCoversProp r p := by
  obtain ⟨s1, e1, s2, e2⟩ := r
  rcases s1 with _ | s1 <;> rcases e1 with _ | e1 <;>
    rcases s2 with _ | s2 <;> rcases e2 with _ | e2 <;>
    simp [coveringRowPred, sqlCovers, specCoversProp, and_assoc]

/-- Claim C8: both legal bound shapes (`Excluded/Excluded` and
`Included/Included`, the latter covering `s <= e` and `s > e`) avoid the
splitter's fatal branch, while every other bound-pair combination hits it
(modelled as `none`). -/
theorem split_fatal_branch_reachability (a b : Nat) :
    (splitArc (Bound.excluded a) (Bound.excluded b)).isSome = true ∧
    (splitArc (Bound.included a) (Bound.included b)).isSome = true ∧
    splitArc (Bound.included a) (Bound.excluded b) = none ∧
    splitArc (Bound.excluded a) (Bound.included b) = none ∧
    splitArc (Bound.included a) Bound.unbounded = none ∧
    splitArc (Bound.excluded a) Bound.unbounded = none ∧
    splitArc Bound.unbounded (Bound.included b) = none ∧
    splitArc Bound.unbounded (Bound.excluded b) = none ∧
    splitArc Bound.unbounded Bound.unbounded = none := by
  refine ⟨rfl, ?_, rfl, rfl, rfl, rfl, rfl, rfl, rfl⟩
  by_cases h : b < a <;> simp [splitArc, h]

/-- Claim C1: the claim states the overlap query matches iff any of the four
pairwise sub-range intersections holds, but the implemented `WHERE` clause
checks only the two parallel pairings (query sub-range-1 against stored
sub-range-1, query sub-range-2 against stored sub-range-2). At the wrapping
stored record `(s, e) = (10, 5)` (split `[0,5]` and `[10, u32::MAX]`) and the
non-wrapping query `[20, 30]`, the two arcs share every address in
`[20, 30]` and the four-pairwise rule matches, yet the implemented query
returns a count of 0. -/
theorem overlap_missing_cross_pairing :
    splitArc (Bound.included 10) (Bound.included 5) =
      some ⟨some 0, some 5, some 10, some u32MAX⟩ ∧
    splitArc (Bound.included 20) (Bound.included 30) =
      some ⟨some 20, some 30, none, none⟩ ∧
    specOverlapRowPred ⟨some 20, some 30, none, none⟩
      ⟨some 0, some 5, some 10, some u32MAX⟩ = true ∧
    count_agents_overlaping_arc [⟨some 0, some 5, some 10, some u32MAX⟩]
      (Bound.included 20) (Bound.included 30) = some 0 := by
  refine ⟨by decide, by decide, by decide, ?_⟩
  simp [count_agents_overlaping_arc, splitArc, List.filter, overlapRowPred,
    sqlIntersect]

/-- Claim C2: the implemented overlap predicate is symmetric: for intervals
`Q` and `R` (any legal bound pairs), the overlap query for `Q` against a
store holding only the record split from `R` matches iff the overlap query
for `R` against a store holding only the record split from `Q` does. -/
theorem overlap_symmetric (qs qe rs re : Bound) (q r : SplitArc)
    (hq : splitArc qs qe = some q) (hr : splitArc rs re = some r) :
    count_agents_overlaping_arc [r] qs qe = some 1 ↔
      count_agents_overlaping_arc [q] rs re = some 1 := by
  rw [count_overlap_single r q qs qe hq, count_overlap_single q r rs re hr,
    overlapRowPred_symm q r]

/-- Witness for C2 at the wrapping query `(50, 10)` and the non-wrapping
record `(5, 8)`: both directions report one match (the record's range `[5,8]`
meets the query's low segment `[0,10]`). -/
theorem overlap_symmetric_witness :
    splitArc (Bound.included 50) (Bound.included 10) =
      some ⟨some 0, some 10, some 50, some u32MAX⟩ ∧
    splitArc (Bound.included 5) (Bound.included 8) =
      some ⟨some 5, some 8, none, none⟩ ∧
    (count_agents_overlaping_arc [⟨some 5, some 8, none, none⟩]
        (Bound.included 50) (Bound.included 10) = some 1 ↔
      count_agents_overlaping_arc [⟨some 0, some 10, some 50, some u32MAX⟩]
        (Bound.included 5) (Bound.included 8) = some 1) :=
  ⟨by decide, by decide,
   overlap_symmetric (Bound.included 50) (Bound.included 10)
     (Bound.included 5) (Bound.included 8)
     ⟨some 0, some 10, some 50, some u32MAX⟩
     ⟨some 5, some 8, none, none⟩ (by decide) (by decide)⟩

/-- Claim C6: for a wrapping interval with inclusive bounds `s > e` (both
representable u32 values), the split produces the sub-ranges `[0, e]` and
`[s, u32::MAX]`; for every point `P` the two sub-ranges are disjoint, a point
with `P <= e` or `P >= s` lies in exactly one of them, and a point with
`e < P < s` lies in neither. -/
theorem wrap_segments_partition (s e p : Nat) (h1 : e < s) (h2 : s ≤ u32MAX) :
    splitArc (Bound.included s) (Bound.included e) =
      some ⟨some 0, some e, some s, some u32MAX⟩ ∧
    ¬(sqlCovers p (some 0) (some e) = true ∧
      sqlCovers p (some s) (some u32MAX) = true) ∧
    (p ≤ u32MAX → p ≤ e ∨ s ≤ p →
      ((sqlCovers p (some 0) (some e)).xor
        (sqlCovers p (some s) (some u32MAX))) = true) ∧
    (e < p → p < s →
      sqlCovers p (some 0) (some e) = false ∧
      sqlCovers p (some s) (some u32MAX) = false) := by
  refine ⟨by simp [splitArc, h1], ?_, ?_, ?_⟩
  · rintro ⟨ha, hb⟩
    simp [sqlCovers] at ha hb
    omega
  · intro hp hrange
    by_cases hpe : p ≤ e
    · have hps : ¬ s ≤ p := by omega
      simp [sqlCovers, hpe, hps]
    · have hps : s ≤ p := by omega
      simp [sqlCovers, hpe, hps, hp]
  · intro ha hb
    simp [sqlCovers, decide_eq_true_eq]
    omega

/-- Witness for C6 at the wrapping bounds `(s, e) = (10, 5)` and the point
`P = 3`, which lies in the low segment only. -/
theorem wrap_segments_partition_witness :
    splitArc (Bound.included 10) (Bound.included 5) =
      some ⟨some 0, some 5, some 10, some u32MAX⟩ ∧
    ¬(sqlCovers 3 (some 0) (some 5) = true ∧
      sqlCovers 3 (some 10) (some u32MAX) = true) ∧
    (3 ≤ u32MAX → 3 ≤ 5 ∨ 10 ≤ 3 →
      ((sqlCovers 3 (some 0) (some 5)).xor
        (sqlCovers 3 (some 10) (some u32MAX))) = true) ∧
    (5 < 3 → 3 < 10 →
      sqlCovers 3 (some 0) (some 5) = false ∧
      sqlCovers 3 (some 10) (some u32MAX) = false) :=
  wrap_segments_partition 10 5 3 (by decide) (by decide)

/-- Claim C7: for every legal input interval (any bound pair the splitter
accepts, with representable u32 bound values), the resulting `SplitArc` has
each pair either both-set or both-unset, and every present pair satisfies
`start <= end`. -/
theorem split_pair_invariant (bs be : Bound) (r : SplitArc)
    (hbs : boundU32 bs) (hbe : boundU32 be) (h : splitArc bs be = some r) :
    pairInv r.start_1 r.end_1 ∧ pairInv r.start_2 r.end_2 := by
  cases bs with
  | included s =>
    cases be with
    | included e =>
      by_cases hse : s > e
      · simp [splitArc, hse] at h
        subst h
        exact ⟨Nat.zero_le e, hbs⟩
      · simp [splitArc, hse] at h
        subst h
        exact ⟨Nat.le_of_not_lt hse, trivial⟩
    | excluded e => simp [splitArc] at h
    | unbounded => simp [splitArc] at h
  | excluded s =>
    cases be with
    | included e => simp [splitArc] at h
    | excluded e =>
      simp [splitArc] at h
      subst h
      exact ⟨trivial, trivial⟩
    | unbounded => simp [splitArc] at h
  | unbounded => simp [splitArc] at h

/-- Witness for C7 at the wrapping bounds `(7, 2)`. -/
theorem split_pair_invariant_witness :
    pairInv (some 0) (some 2) ∧ pairInv (some 7) (some u32MAX) :=
  split_pair_invariant (Bound.included 7) (Bound.included 2)
    ⟨some 0, some 2, some 7, some u32MAX⟩
    (show (7 : Nat) ≤ u32MAX by decide) (show (2 : Nat) ≤ u32MAX by decide)
    (by decide)

/-- Claim C9: a record split from a wrapping interval with inclusive bounds
`s > e` (with `s` a representable u32 value) is matched by the coverage query
at point `0` and at point `u32::MAX`: its low segment starts at `u32::MIN`
and its high segment ends at `u32::MAX`. -/
theorem wrap_covers_boundary_points (s e : Nat) (r : SplitArc)
    (h1 : e < s) (h2 : s ≤ u32MAX)
    (hr : splitArc (Bound.included s) (Bound.included e) = some r) :
    r.start_1 = some 0 ∧ r.end_2 = some u32MAX ∧
    count_agents_covering_loc [r] 0 = 1 ∧
    count_agents_covering_loc [r] u32MAX = 1 := by
  simp [splitArc, h1] at hr
  subst hr
  refine ⟨rfl, rfl, ?_, ?_⟩
  · simp [count_agents_covering_loc, coveringRowPred, sqlCovers, List.filter]
  · have hcov : coveringRowPred u32MAX
        ⟨some 0, some e, some s, some u32MAX⟩ = true := by
      simp [coveringRowPred, sqlCovers, h2]
    simp [count_agents_covering_loc, List.filter, hcov]

/-- Witness for C9 at the wrapping bounds `(10, 5)`. -/
theorem wrap_covers_boundary_points_witness :
    (⟨some 0, some 5, some 10, some u32MAX⟩ : SplitArc).start_1 = some 0 ∧
    (⟨some 0, some 5, some 10, some u32MAX⟩ : SplitArc).end_2 = some u32MAX ∧
    count_agents_covering_loc [⟨some 0, some 5, some 10, some u32MAX⟩] 0 = 1 ∧
    count_agents_covering_loc
      [⟨some 0, some 5, some 10, some u32MAX⟩] u32MAX = 1 :=
  wrap_covers_boundary_points 10 5 ⟨some 0, some 5, some 10, some u32MAX⟩
    (by decide) (by decide) (by decide)

/-- Claim C10: whenever the query interval is wrapping (inclusive bounds
`qs > qe`) and the single stored record's interval is also wrapping
(inclusive bounds `rs > re`), the overlap query matches the record: both
first sub-ranges start at `u32::MIN`, so the first disjunct of the predicate
always holds. -/
theorem wrap_wrap_always_overlaps (qs qe rs re : Nat) (r : SplitArc)
    (hq : qe < qs) (hr : re < rs)
    (hsplit : splitArc (Bound.included rs) (Bound.included re) = some r) :
    count_agents_overlaping_arc [r] (Bound.included qs) (Bound.included qe) =
      some 1 := by
  simp [splitArc, hr] at hsplit
  subst hsplit
  have hpred : overlapRowPred ⟨some 0, some qe, some qs, some u32MAX⟩
      ⟨some 0, some re, some rs, some u32MAX⟩ = true := by
    simp [overlapRowPred, sqlIntersect]
  simp [count_agents_overlaping_arc, splitArc, hq, List.filter, hpred]

/-- Witness for C10 with query bounds `(100, 50)` and record bounds
`(200, 7)`, both wrapping. -/
theorem wrap_wrap_always_overlaps_witness :
    count_agents_overlaping_arc [⟨some 0, some 7, some 200, some u32MAX⟩]
      (Bound.included 100) (Bound.included 50) = some 1 :=
  wrap_wrap_always_overlaps 100 50 200 7
    ⟨some 0, some 7, some 200, some u32MAX⟩ (by decide) (by decide) (by decide)
